import Mathlib

/-!
Verification of the deno-restapi-demo service against its specification.

The repository has two source variants of the same service:
  * `src/server.js`       — timestamp record ids, uniform login error, favorites routes;
  * `src/unnamed/part_000` — atomic-counter record ids, signup validation, no favorites.

We shallowly embed both variants.  JavaScript objects are modelled as ordered
field lists of a small JSON type; the Deno KV store partitions are modelled as
association lists (`kvGet`/`kvSet`/`kvDelete` mirror `kv.get`/`kv.set`/`kv.delete`
on single keys, first-match semantics standing in for the key-indexed map).
Handlers that can throw a runtime exception (e.g. `kv.get` with an `undefined`
key part, `hash(undefined)`) return `Except Unit _`; the Hono framework turns an
uncaught exception into a 500 response, modelled by `runHandler`.
-/

namespace DenoRestapi

/-- A JSON value, as produced/consumed by the handlers' `c.json` bodies. -/
inductive Json where
  | str (s : String)
  | num (n : Nat)
  | jbool (b : Bool)
  | null
  | arr (elems : List Json)
  | obj (fields : List (String × Json))

/-- A JavaScript object: an ordered list of named fields. -/
abbrev Obj := List (String × Json)

/-- Reading a field of a JavaScript object (`record['k']`): first match, `none` = `undefined`. -/
def getField : Obj → String → Option Json
  | [], _ => none
  | (k', v') :: rest, k => if k' = k then some v' else getField rest k

/-- JavaScript field assignment `record[k] = v`: an existing field is updated in
place (keeping its position), a new field is appended. -/
def setField : Obj → String → Json → Obj
  | [], k, v => [(k, v)]
  | (k', v') :: rest, k, v =>
    if k' = k then (k, v) :: rest else (k', v') :: setField rest k v

theorem getField_setField_same (r : Obj) (k : String) (v : Json) :
    getField (setField r k v) k = some v := by
  induction r with
  | nil => simp [setField, getField]
  | cons e rest ih =>
    by_cases h : e.1 = k
    · simp [setField, getField, h]
    · simp [setField, getField, h, ih]

theorem getField_setField_other (r : Obj) (k k' : String) (v : Json) (h : k' ≠ k) :
    getField (setField r k v) k' = getField r k' := by
  have hk : ¬ k = k' := fun h' => h h'.symm
  induction r with
  | nil => simp [setField, getField, hk]
  | cons e rest ih =>
    by_cases he : e.1 = k
    · simp [setField, getField, he, hk]
    · simp [setField, getField, he, ih]

/-! ### The Deno KV partitions (association-list model of the key-indexed store) -/

variable {κ : Type} [DecidableEq κ]

/-- `kv.get([..., k])` on a partition. -/
def kvGet (l : List (κ × α)) (k : κ) : Option α :=
  match l with
  | [] => none
  | (k', v') :: rest => if k' = k then some v' else kvGet rest k

/-- `kv.set([..., k], v)` on a partition: replaces the value under an existing
key (keeping its position in the key scan), otherwise appends.  Appending models
key order correctly for the handlers, which only ever create records under
fresh, increasing keys. -/
def kvSet (l : List (κ × α)) (k : κ) (v : α) : List (κ × α) :=
  match l with
  | [] => [(k, v)]
  | (k', v') :: rest => if k' = k then (k, v) :: rest else (k', v') :: kvSet rest k v

/-- `kv.delete([..., k])` on a partition. -/
def kvDelete (l : List (κ × α)) (k : κ) : List (κ × α) :=
  match l with
  | [] => []
  | (k', v') :: rest => if k' = k then rest else (k', v') :: kvDelete rest k

theorem kvGet_kvSet_same (l : List (κ × α)) (k : κ) (v : α) :
    kvGet (kvSet l k v) k = some v := by
  induction l with
  | nil => simp [kvSet, kvGet]
  | cons e rest ih =>
    by_cases h : e.1 = k
    · simp [kvSet, kvGet, h]
    · simp [kvSet, kvGet, h, ih]

theorem kvGet_kvSet_other (l : List (κ × α)) (k k' : κ) (v : α) (h : k' ≠ k) :
    kvGet (kvSet l k v) k' = kvGet l k' := by
  have hk : ¬ k = k' := fun h' => h h'.symm
  induction l with
  | nil => simp [kvSet, kvGet, hk]
  | cons e rest ih =>
    by_cases he : e.1 = k
    · simp [kvSet, kvGet, he, hk]
    · simp [kvSet, kvGet, he, ih]

theorem kvSet_length_of_fresh (l : List (κ × α)) (k : κ) (v : α)
    (h : kvGet l k = none) : (kvSet l k v).length = l.length + 1 := by
  induction l with
  | nil => simp [kvSet]
  | cons e rest ih =>
    by_cases he : e.1 = k
    · simp [kvGet, he] at h
    · simp [kvGet, he] at h
      simp [kvSet, he, ih h]

theorem kvSet_length_of_present (l : List (κ × α)) (k : κ) (v w : α)
    (h : kvGet l k = some w) : (kvSet l k v).length = l.length := by
  induction l with
  | nil => simp [kvGet] at h
  | cons e rest ih =>
    by_cases he : e.1 = k
    · simp [kvSet, he]
    · simp [kvGet, he] at h
      simp [kvSet, he, ih h]

theorem kvDelete_kvSet_fresh (l : List (κ × α)) (k : κ) (v : α)
    (h : kvGet l k = none) : kvDelete (kvSet l k v) k = l := by
  induction l with
  | nil => simp [kvSet, kvDelete]
  | cons e rest ih =>
    by_cases he : e.1 = k
    · simp [kvGet, he] at h
    · simp [kvGet, he] at h
      simp [kvSet, kvDelete, he, ih h]

/-! ### Password hashing (jsr:@felix/bcrypt)

`hash` is a one-way salted hash and `verify` its checker; the salt and
irreversibility play no role in any claim, so the pair is modelled by an
injective tagging function together with the matching checker. -/

def bcryptHash (password : String) : String := "$2b$" ++ password

def bcryptVerify (password hashed : String) : Bool := hashed == bcryptHash password

/-! ### JWT model (jsr:@hono/hono/jwt)

A signed token carries its payload and, standing in for the HMAC signature,
the secret it was signed with; verification compares that to the verifier's
secret and checks the `exp` claim against the current time (seconds). -/

structure JwtPayload where
  sub : String
  iat : Option Nat
  exp : Nat
  deriving DecidableEq

structure Token where
  payload : JwtPayload
  sig : String
  deriving DecidableEq

/-- `sign(payload, secret)` with a defined secret. -/
def signJwt (p : JwtPayload) (secret : String) : Token := ⟨p, secret⟩

/-- The cookie value seen by the jwt middleware: either a well-formed signed
token or a string that does not decode as a JWT at all. -/
inductive CookieVal where
  | malformed (raw : String)
  | token (t : Token)
  deriving DecidableEq

/-- `verify(token, secret)` of hono/jwt at time `nowSec`: fails on a malformed
token, a signature made with a different secret, or an expired `exp` claim. -/
def verifyJwt (secret : String) (nowSec : Nat) : CookieVal → Option JwtPayload
  | .malformed _ => none
  | .token t =>
    if t.sig = secret ∧ ¬ t.payload.exp < nowSec then some t.payload else none

/-! ### Users, responses -/

structure User where
  username : String
  hashedPassword : String
  deriving DecidableEq

structure Response where
  status : Nat
  body : Json
  setCookie : Option Token := none
  dropCookie : Bool := false

/-- Cookie and expiry constants shared by both variants
(`COOKIE_NAME = 'auth_token'`, `EXP_TIME = 60 * 60 * 24`). -/
def COOKIE_NAME : String := "auth_token"

def EXP_TIME : Nat := 60 * 60 * 24

/-- Hono turns an exception escaping a handler into `500 Internal Server Error`. -/
def runHandler (st : σ) : Except Unit (Response × σ) → Response × σ
  | .ok rs => rs
  | .error _ => ({ status := 500, body := .str "Internal Server Error" }, st)

/-- JavaScript truthiness of a possibly-undefined string
(`undefined` and `''` are falsy). -/
def truthy : Option String → Bool
  | none => false
  | some s => !(s == "")

/-! ### The login handlers (`POST /api/login`)

Request body fields are `Option String` (`none` = the field is absent from the
JSON body, i.e. `undefined`).  `kv.get(['users', undefined])` throws
(`undefined` is not a valid KV key part), and `verify(undefined, hash)` throws
in the bcrypt binding; both are modelled as `.error ()`. -/

/-- `src/server.js` lines 26–52: one uniform 401 branch
(`if (!user || !(await verify(password, user.hashedPassword)))`). -/
def loginJs (users : List (String × User)) (username password : Option String)
    (nowMs : Nat) (secret : String) : Except Unit Response :=
  match username with
  | none => .error ()
  | some u =>
    match kvGet users u with
    | none => .ok { status := 401, body := .obj [("message", .str "無効")] }
    | some user =>
      match password with
      | none => .error ()
      | some p =>
        if bcryptVerify p user.hashedPassword then
          .ok { status := 200,
                body := .obj [("message", .str "ログイン成功"), ("username", .str user.username)],
                setCookie := some (signJwt ⟨user.username, none, nowMs / 1000 + EXP_TIME⟩ secret) }
        else .ok { status := 401, body := .obj [("message", .str "無効")] }

/-- `src/unnamed/part_000` lines 51–83: two separate 401 branches with
different messages; `sign(payload, JWT_SECRET)` throws when `JWT_SECRET` is
`undefined`. -/
def loginPart0 (users : List (String × User)) (username password : Option String)
    (nowMs : Nat) (secret : Option String) : Except Unit Response :=
  match username with
  | none => .error ()
  | some u =>
    match kvGet users u with
    | none => .ok { status := 401, body := .obj [("message", .str "ユーザー名が無効です")] }
    | some user =>
      match password with
      | none => .error ()
      | some p =>
        if bcryptVerify p user.hashedPassword then
          match secret with
          | none => .error ()
          | some s =>
            .ok { status := 200,
                  body := .obj [("message", .str "ログイン成功"), ("username", .str user.username)],
                  setCookie := some
                    (signJwt ⟨user.username, some (nowMs / 1000), nowMs / 1000 + 60 * 60 * 24⟩ s) }
        else .ok { status := 401, body := .obj [("message", .str "パスワードが無効です")] }

/-- Extract the `message` field of a response body (for comparing error bodies). -/
def respMessage (r : Response) : Option Json :=
  match r.body with
  | .obj fields => getField fields "message"
  | _ => none

/-! ### The signup handlers (`POST /api/signup`) -/

/-- `src/server.js` lines 17–24: no field validation.  An absent `username`
makes `kv.get(['users', undefined])` throw; an absent `password` makes
`hash(undefined)` throw (only reached after the duplicate check). -/
def signupJs (users : List (String × User)) (username password : Option String) :
    Except Unit (Response × List (String × User)) :=
  match username with
  | none => .error ()
  | some u =>
    match kvGet users u with
    | some _ => .ok ({ status := 409, body := .obj [("message", .str "使用済み")] }, users)
    | none =>
      match password with
      | none => .error ()
      | some p =>
        .ok ({ status := 201, body := .obj [("message", .str "成功")] },
             kvSet users u ⟨u, bcryptHash p⟩)

/-- `src/unnamed/part_000` lines 29–48: `if (!username || !password)` responds
400 before anything else; then the duplicate check (409) and the insert (201). -/
def signupPart0 (users : List (String × User)) (username password : Option String) :
    Response × List (String × User) :=
  if truthy username && truthy password then
    match username, password with
    | some u, some p =>
      (match kvGet users u with
       | some _ =>
         ({ status := 409, body := .obj [("message", .str "このユーザー名は既に使用されています")] },
          users)
       | none =>
         ({ status := 201, body := .obj [("message", .str "ユーザー登録が成功しました")] },
          kvSet users u ⟨u, bcryptHash p⟩))
    | _, _ =>
      ({ status := 400, body := .obj [("message", .str "ユーザー名とパスワードは必須です")] }, users)
  else
    ({ status := 400, body := .obj [("message", .str "ユーザー名とパスワードは必須です")] }, users)

/-! ### Record posting and listing -/

/-- Abstract injective model of `new Date(ms).toISOString()`; the claims only
need that the stamp is derived server-side from the current time. -/
def toISOString (ms : Nat) : String := "iso:" ++ toString ms

/-- The server state of the `src/server.js` variant: the three KV partitions
`['users', name]`, `['colors', id]` (string ids) and
`['favorites', username, recordId]` (value `true`). -/
structure StateJs where
  users : List (String × User)
  colors : List (String × Obj)
  favorites : List ((String × String) × Bool)

/-- The server state of the `src/unnamed/part_000` variant: partitions
`['users', name]`, `['colors', id]` (numeric ids) and the
`['counter', 'colors']` cell. -/
structure StatePart0 where
  users : List (String × User)
  colors : List (Nat × Obj)
  counter : Nat

/-- `src/server.js` lines 63–73 (`POST /api/colors`): stamps `author`,
`createdAt` and the timestamp id over whatever the client sent, persists, and
returns `c.json({ record })` — with no explicit status, i.e. 200. -/
def colorsPostJs (st : StateJs) (username : String) (record : Obj) (nowMs : Nat) :
    Response × StateJs :=
  let r1 := setField record "author" (.str username)
  let r2 := setField r1 "createdAt" (.str (toISOString nowMs))
  let id := toString nowMs
  let r3 := setField r2 "id" (.str id)
  ({ status := 200, body := .obj [("record", .obj r3)] },
   { st with colors := kvSet st.colors id r3 })

/-- `src/unnamed/part_000` lines 113–118 (`getNextId`): `kv.atomic().sum(key, 1n)`
then a separate `kv.get` of the counter.  Sequentially this returns the
incremented value (the non-atomicity of the read is a concurrency property
outside this sequential model). -/
def getNextId (counter : Nat) : Nat × Nat :=
  let counter' := counter + 1
  (counter', counter')

/-- `src/unnamed/part_000` lines 121–141 (`POST /api/colors`): same stamping,
counter-minted numeric id, explicit `c.status(201)`. -/
def colorsPostPart0 (st : StatePart0) (username : String) (record : Obj) (nowMs : Nat) :
    Response × StatePart0 :=
  let r1 := setField record "author" (.str username)
  let r2 := setField r1 "createdAt" (.str (toISOString nowMs))
  let (id, counter') := getNextId st.counter
  let r3 := setField r2 "id" (.num id)
  ({ status := 201, body := .obj [("record", .obj r3)] },
   { st with colors := kvSet st.colors id r3, counter := counter' })

/-- The stored value under `['favorites', u, id]`, passed through `!!` —
`!!undefined` is `false`. -/
def isFavoriteJs (favs : List ((String × String) × Bool)) (username id : String) : Bool :=
  match kvGet favs (username, id) with
  | some b => b
  | none => false

/-- The `id` field of a stored record, when it is a string (the only shape the
handlers ever store).  A record without a string id would reach
`kv.get(['favorites', username, undefined])`, which throws. -/
def recIdStr (r : Obj) : Option String :=
  match getField r "id" with
  | some (.str s) => some s
  | _ => none

/-- The loop body of `GET /api/colors` in `src/server.js`:
`const fav = await kv.get(['favorites', username, entry.value.id]);
entry.value.isFavorite = !!fav.value;`. -/
def decorateJs (favs : List ((String × String) × Bool)) (username : String) (r : Obj) :
    Except Unit Obj :=
  match recIdStr r with
  | none => Except.error ()
  | some id => Except.ok (setField r "isFavorite" (.jbool (isFavoriteJs favs username id)))

/-- `src/server.js` lines 75–85 (`GET /api/colors`): every stored record gets
`entry.value.isFavorite = !!fav.value` for the requesting user, then the list
is reversed. -/
def colorsGetJs (st : StateJs) (username : String) : Except Unit Response := do
  let decorated ← st.colors.mapM (fun e => decorateJs st.favorites username e.2)
  .ok { status := 200, body := .arr ((decorated.reverse).map .obj) }

/-- `src/unnamed/part_000` lines 144–153 (`GET /api/colors`): the raw stored
records, reversed — no favorite flags, no per-user data. -/
def colorsGetPart0 (st : StatePart0) : Response :=
  { status := 200, body := .arr ((st.colors.map (fun e => Json.obj e.2)).reverse) }

/-- `src/server.js` lines 88–100 (`POST /api/favorites/:id`): if the key holds
a truthy value, delete it and report `false`; otherwise set `true` and report
`true`. -/
def favToggleJs (favs : List ((String × String) × Bool)) (username id : String) :
    Response × List ((String × String) × Bool) :=
  match kvGet favs (username, id) with
  | some true =>
    ({ status := 200, body := .obj [("favorite", .jbool false)] }, kvDelete favs (username, id))
  | _ =>
    ({ status := 200, body := .obj [("favorite", .jbool true)] }, kvSet favs (username, id) true)

/-- Does the field `k` of record `r` hold exactly the string `s`
(JS `record[k] === s`)? -/
def fieldEqStr (r : Obj) (k s : String) : Bool :=
  match getField r k with
  | some (.str v) => v == s
  | _ => false

/-- `src/server.js` lines 103–116 (`GET /api/me`): scans the user's favorites
prefix for ids, then partitions all records into own posts and favorites. -/
def meJs (st : StateJs) (username : String) : Response :=
  let favIds := (st.favorites.filter (fun e => e.1.1 == username)).map (fun e => e.1.2)
  let allRecords := st.colors.map (fun e => e.2)
  let myPosts := allRecords.filter (fun r => fieldEqStr r "author" username)
  let myFavorites := allRecords.filter (fun r =>
    match recIdStr r with
    | some id => favIds.contains id
    | none => false)
  { status := 200,
    body := .obj [("myPosts", .arr (myPosts.map .obj)),
                  ("myFavorites", .arr (myFavorites.map .obj))] }

/-- `src/unnamed/part_000` lines 156–163 (`GET /api/users`). -/
def usersGetPart0 (st : StatePart0) : Response :=
  { status := 200, body := .arr (st.users.map (fun e => Json.str e.2.username)) }

/-! ### The signing secret at startup -/

/-- `src/server.js` line 7:
`const JWT_SECRET = Deno.env.get('JWT_SECRET') || 'your-secret-key';`
(`||` takes the fallback for `undefined` and for the empty string). -/
def JWT_SECRET_js (env : Option String) : String :=
  match env with
  | some s => if s = "" then "your-secret-key" else s
  | none => "your-secret-key"

/-- `src/unnamed/part_000` line 14:
`const JWT_SECRET = Deno.env.get('JWT_SECRET');` — no fallback; an absent
variable leaves the constant `undefined`. -/
def JWT_SECRET_part0 (env : Option String) : Option String := env

/-- The hono `jwt()` middleware factory (`jsr:@hono/hono/jwt`) throws at call
time when handed a falsy secret (`JWT auth middleware requires options for
"secret"`).  Both variants invoke it during module evaluation —
`app.use('/api/*', jwt({ secret: JWT_SECRET, cookie: COOKIE_NAME }))` — before
`Deno.serve`, so a falsy secret aborts startup. -/
def jwtMiddlewareFactory : Option String → Except Unit String
  | none => .error ()
  | some s => if s = "" then .error () else .ok s

/-- Module evaluation of `src/server.js`: the middleware factory receives
`Deno.env.get('JWT_SECRET') || 'your-secret-key'`; on success the result is
the secret the running service signs and validates with. -/
def startJs (env : Option String) : Except Unit String :=
  jwtMiddlewareFactory (some (JWT_SECRET_js env))

/-- Module evaluation of `src/unnamed/part_000`: the middleware factory
receives `Deno.env.get('JWT_SECRET')` with no fallback; a falsy value makes
line 86 throw, so the service refuses to start. -/
def startPart0 (env : Option String) : Except Unit String :=
  jwtMiddlewareFactory (JWT_SECRET_part0 env)

/-! ### Routing and the jwt middleware

Both variants register `POST /api/signup` and `POST /api/login` before
`app.use('/api/*', jwt({ secret: JWT_SECRET, cookie: COOKIE_NAME }))`, so only
those two (method, path) pairs bypass the gate; every other `/api/*` request
passes through the middleware first, which responds 401 when the cookie is
absent or its token fails verification. -/

inductive Method where
  | get
  | post
  deriving DecidableEq

inductive ApiPath where
  | signup
  | login
  | logout
  | check
  | colors
  | favorites (id : String)
  | me
  | users
  | other (p : String)
  deriving DecidableEq

structure ApiRequest where
  method : Method
  path : ApiPath
  cookie : Option CookieVal := none
  username : Option String := none
  password : Option String := none
  record : Obj := []
  nowMs : Nat := 0

/-- The hono jwt middleware's 401 (thrown `HTTPException`). -/
def jwtGateResponse : Response := { status := 401, body := .str "Unauthorized" }

/-- Is this (method, path) pair one of the two registered before the jwt
middleware? -/
def bypassesGate (m : Method) (p : ApiPath) : Bool :=
  (m == .post && p == .signup) || (m == .post && p == .login)

def notFoundResponse : Response := { status := 404, body := .str "404 Not Found" }

/-- `src/server.js` handlers behind the gate (registration order: check,
logout, colors POST/GET, favorites/:id, me); anything else under `/api/*`
falls through to a 404 after the gate. -/
def protectedJs (m : Method) (p : ApiPath) (payload : JwtPayload) (st : StateJs)
    (req : ApiRequest) : Response × StateJs :=
  match m, p with
  | .get, .check => ({ status := 200, body := .obj [("username", .str payload.sub)] }, st)
  | .post, .logout => ({ status := 204, body := .null, dropCookie := true }, st)
  | .post, .colors => colorsPostJs st payload.sub req.record req.nowMs
  | .get, .colors => runHandler st ((colorsGetJs st payload.sub).map (fun r => (r, st)))
  | .post, .favorites id =>
    let (r, favs) := favToggleJs st.favorites payload.sub id
    (r, { st with favorites := favs })
  | .get, .me => (meJs st payload.sub, st)
  | _, _ => (notFoundResponse, st)

/-- Full dispatch of an `/api/*` request in the `src/server.js` variant. -/
def dispatchJs (secret : String) (st : StateJs) (req : ApiRequest) : Response × StateJs :=
  match req.method, req.path with
  | .post, .signup =>
    match runHandler st.users (signupJs st.users req.username req.password) with
    | (r, users) => (r, { st with users := users })
  | .post, .login =>
    runHandler st ((loginJs st.users req.username req.password req.nowMs secret).map
      (fun r => (r, st)))
  | m, p =>
    match req.cookie with
    | none => (jwtGateResponse, st)
    | some cv =>
      match verifyJwt secret (req.nowMs / 1000) cv with
      | none => (jwtGateResponse, st)
      | some payload => protectedJs m p payload st req

/-- `src/unnamed/part_000` handlers behind the gate (logout, check, colors
POST/GET, users). -/
def protectedPart0 (m : Method) (p : ApiPath) (payload : JwtPayload) (st : StatePart0)
    (req : ApiRequest) : Response × StatePart0 :=
  match m, p with
  | .post, .logout => ({ status := 204, body := .null, dropCookie := true }, st)
  | .get, .check => ({ status := 200, body := .obj [("username", .str payload.sub)] }, st)
  | .post, .colors => colorsPostPart0 st payload.sub req.record req.nowMs
  | .get, .colors => (colorsGetPart0 st, st)
  | .get, .users => (usersGetPart0 st, st)
  | _, _ => (notFoundResponse, st)

/-- Full dispatch of an `/api/*` request in the `src/unnamed/part_000`
variant.  A running service always holds a truthy secret, because
`jwt({ secret: JWT_SECRET, ... })` throws during module evaluation otherwise
(see `startPart0`), so the dispatch takes the secret as a plain string. -/
def dispatchPart0 (secret : String) (st : StatePart0) (req : ApiRequest) :
    Response × StatePart0 :=
  match req.method, req.path with
  | .post, .signup =>
    match signupPart0 st.users req.username req.password with
    | (r, users) => (r, { st with users := users })
  | .post, .login =>
    runHandler st ((loginPart0 st.users req.username req.password req.nowMs (some secret)).map
      (fun r => (r, st)))
  | m, p =>
    match req.cookie with
    | none => (jwtGateResponse, st)
    | some cv =>
      match verifyJwt secret (req.nowMs / 1000) cv with
      | none => (jwtGateResponse, st)
      | some payload => protectedPart0 m p payload st req

/-! ### The signup/login page gate -/

inductive PageResult where
  | redirect (loc : String)
  | next
  deriving DecidableEq

/-- `src/server.js` lines 118–121 = `src/unnamed/part_000` lines 172–176: on
`GET /signup.html` or `/login.html`, `if (getCookie(c, COOKIE_NAME)) return
c.redirect('/index.html'); await next()`.  The raw cookie string is only
tested for truthiness — never validated. -/
def pagesGate (cookie : Option String) : PageResult :=
  if truthy cookie then .redirect "/index.html" else .next

/-! ## Concrete fixtures used by witnesses and counterexamples -/

/-- The stored record of a user `alice` registered with password `pw123`. -/
def aliceRec : User := ⟨"alice", bcryptHash "pw123"⟩

/-- A credential store holding the single registered user `alice`/`pw123`. -/
def aliceStore : List (String × User) := [("alice", aliceRec)]

def emptyJs : StateJs := ⟨[], [], []⟩

def emptyPart0 : StatePart0 := ⟨[], [], 0⟩

/-- The record object of a `POST /api/colors` response body (`{ record }`). -/
def respRecord (r : Response) : Option Obj :=
  match r.body with
  | .obj [("record", .obj o)] => some o
  | _ => none

/-! ## C1 — uniformity of login failures -/

/-- C1 counterexample: in the `part_000` variant, a login with a username
absent from the store and a login with a wrong password for a registered user
both return 401, but with different messages (`ユーザー名が無効です` vs
`パスワードが無効です`), so the error responses are distinguishable and reveal
the sub-reason. -/
theorem c1_part0_login_reveals_subreason :
    (∃ r, loginPart0 aliceStore (some "bob") (some "anything") 0 (some "key") = .ok r ∧
          r.status = 401 ∧ respMessage r = some (.str "ユーザー名が無効です")) ∧
    (∃ r, loginPart0 aliceStore (some "alice") (some "wrongpw") 0 (some "key") = .ok r ∧
          r.status = 401 ∧ respMessage r = some (.str "パスワードが無効です")) ∧
    "ユーザー名が無効です" ≠ "パスワードが無効です" := by
  refine ⟨⟨_, rfl, rfl, rfl⟩,
    ⟨{ status := 401, body := .obj [("message", .str "パスワードが無効です")] }, ?_, rfl, rfl⟩,
    by decide⟩
  have h : bcryptVerify "wrongpw" aliceRec.hashedPassword = false := by decide
  simp [loginPart0, kvGet, aliceStore, h]

/-- C1 (amended): every failed login — username absent or password mismatch —
returns HTTP 401 in both variants; in the `server.js` variant the two failure
responses are the same response (message `無効`), but in the `part_000`
variant only the status coincides, the message differing by sub-reason. -/
theorem c1_login_failure_uniformity (users : List (String × User))
    (u1 p1 u2 p2 : String) (nowMs : Nat) (secret : String) (osecret : Option String)
    (rec : User)
    (h1 : kvGet users u1 = none)
    (h2 : kvGet users u2 = some rec)
    (h3 : bcryptVerify p2 rec.hashedPassword = false) :
    loginJs users (some u1) (some p1) nowMs secret
      = .ok { status := 401, body := .obj [("message", .str "無効")] } ∧
    loginJs users (some u2) (some p2) nowMs secret
      = .ok { status := 401, body := .obj [("message", .str "無効")] } ∧
    loginPart0 users (some u1) (some p1) nowMs osecret
      = .ok { status := 401, body := .obj [("message", .str "ユーザー名が無効です")] } ∧
    loginPart0 users (some u2) (some p2) nowMs osecret
      = .ok { status := 401, body := .obj [("message", .str "パスワードが無効です")] } := by
  refine ⟨?_, ?_, ?_, ?_⟩ <;> simp [loginJs, loginPart0, h1, h2, h3]

theorem c1_login_failure_uniformity_witness :
    loginJs aliceStore (some "bob") (some "x") 0 "key"
      = .ok { status := 401, body := .obj [("message", .str "無効")] } ∧
    loginJs aliceStore (some "alice") (some "wrongpw") 0 "key"
      = .ok { status := 401, body := .obj [("message", .str "無効")] } ∧
    loginPart0 aliceStore (some "bob") (some "x") 0 (some "key")
      = .ok { status := 401, body := .obj [("message", .str "ユーザー名が無効です")] } ∧
    loginPart0 aliceStore (some "alice") (some "wrongpw") 0 (some "key")
      = .ok { status := 401, body := .obj [("message", .str "パスワードが無効です")] } :=
  c1_login_failure_uniformity aliceStore "bob" "x" "alice" "wrongpw" 0 "key" (some "key")
    ⟨"alice", bcryptHash "pw123"⟩ (by decide) (by decide) (by decide)

/-! ## C2 — signup uniqueness -/

/-- C2: in both variants, registering a fresh username (with both fields
present and nonempty) succeeds with 201 and stores the user's record, and a
second registration of the same username — with any password — fails with 409
and leaves the store, in particular the first user's stored record, unchanged;
registering an already-taken username fails with 409 and leaves the store
untouched. -/
theorem c2_signup_conflict_on_duplicate
    (users takenUsers : List (String × User)) (u p q u' p' : String) (rec : User)
    (hu : u ≠ "") (hp : p ≠ "") (hq : q ≠ "") (hu' : u' ≠ "") (hp' : p' ≠ "")
    (hfresh : kvGet users u = none)
    (htaken : kvGet takenUsers u' = some rec) :
    -- fresh username: 201, record stored (both variants)
    signupJs users (some u) (some p)
      = .ok ({ status := 201, body := .obj [("message", .str "成功")] },
             kvSet users u ⟨u, bcryptHash p⟩) ∧
    (signupPart0 users (some u) (some p)).1.status = 201 ∧
    (signupPart0 users (some u) (some p)).2 = kvSet users u ⟨u, bcryptHash p⟩ ∧
    kvGet (kvSet users u ⟨u, bcryptHash p⟩) u = some ⟨u, bcryptHash p⟩ ∧
    -- a second registration of the same username then yields 409 and changes
    -- nothing (both variants)
    signupJs (kvSet users u ⟨u, bcryptHash p⟩) (some u) (some q)
      = .ok ({ status := 409, body := .obj [("message", .str "使用済み")] },
             kvSet users u ⟨u, bcryptHash p⟩) ∧
    (signupPart0 (kvSet users u ⟨u, bcryptHash p⟩) (some u) (some q)).1.status = 409 ∧
    (signupPart0 (kvSet users u ⟨u, bcryptHash p⟩) (some u) (some q)).2
      = kvSet users u ⟨u, bcryptHash p⟩ ∧
    -- an already-taken username yields 409 with the store untouched (both variants)
    signupJs takenUsers (some u') (some p')
      = .ok ({ status := 409, body := .obj [("message", .str "使用済み")] }, takenUsers) ∧
    (signupPart0 takenUsers (some u') (some p')).1.status = 409 ∧
    (signupPart0 takenUsers (some u') (some p')).2 = takenUsers := by
  have hstored : kvGet (kvSet users u ⟨u, bcryptHash p⟩) u = some ⟨u, bcryptHash p⟩ :=
    kvGet_kvSet_same users u ⟨u, bcryptHash p⟩
  refine ⟨?_, ?_, ?_, hstored, ?_, ?_, ?_, ?_, ?_, ?_⟩ <;>
    simp [signupJs, signupPart0, truthy, hfresh, htaken, hstored, hu, hp, hq, hu', hp']

theorem c2_signup_conflict_on_duplicate_witness :
    signupJs [] (some "alice") (some "pw123")
      = .ok ({ status := 201, body := .obj [("message", .str "成功")] },
             kvSet [] "alice" aliceRec) ∧
    (signupPart0 [] (some "alice") (some "pw123")).1.status = 201 ∧
    (signupPart0 [] (some "alice") (some "pw123")).2 = kvSet [] "alice" aliceRec ∧
    kvGet (kvSet [] "alice" aliceRec) "alice" = some aliceRec ∧
    signupJs (kvSet [] "alice" aliceRec) (some "alice") (some "other")
      = .ok ({ status := 409, body := .obj [("message", .str "使用済み")] },
             kvSet [] "alice" aliceRec) ∧
    (signupPart0 (kvSet [] "alice" aliceRec) (some "alice") (some "other")).1.status = 409 ∧
    (signupPart0 (kvSet [] "alice" aliceRec) (some "alice") (some "other")).2
      = kvSet [] "alice" aliceRec ∧
    signupJs aliceStore (some "alice") (some "pw456")
      = .ok ({ status := 409, body := .obj [("message", .str "使用済み")] }, aliceStore) ∧
    (signupPart0 aliceStore (some "alice") (some "pw456")).1.status = 409 ∧
    (signupPart0 aliceStore (some "alice") (some "pw456")).2 = aliceStore :=
  c2_signup_conflict_on_duplicate [] aliceStore "alice" "pw123" "other" "alice" "pw456"
    aliceRec (by decide) (by decide) (by decide) (by decide)
    (by decide) (by decide) (by decide)

/-! ## C3 — the jwt gate short-circuits every protected `/api/*` request -/

/-- C3: for any `/api/*` request other than `POST /api/signup` and
`POST /api/login`, if the session cookie is absent or its token fails
verification (malformed, wrong signature, or expired), both variants answer
with the middleware's 401 and the server state is unchanged — no protected
handler runs. -/
theorem c3_gate_short_circuits (secret : String) (stJs : StateJs) (stP0 : StatePart0)
    (req : ApiRequest)
    (hroute : bypassesGate req.method req.path = false)
    (hauth : ∀ cv, req.cookie = some cv → verifyJwt secret (req.nowMs / 1000) cv = none) :
    dispatchJs secret stJs req = (jwtGateResponse, stJs) ∧
    dispatchPart0 secret stP0 req = (jwtGateResponse, stP0) := by
  obtain ⟨m, p, cookie, un, pw, record, nowMs⟩ := req
  cases cookie with
  | none =>
    cases m <;> cases p <;>
      first
        | exact ⟨rfl, rfl⟩
        | (simp [bypassesGate] at hroute)
  | some cv =>
    have hv : verifyJwt secret (nowMs / 1000) cv = none := hauth cv rfl
    cases m <;> cases p <;>
      solve
        | (constructor <;> simp [dispatchJs, dispatchPart0, hv])
        | (simp [bypassesGate] at hroute)

/-- A token signed with a different secret than the server's `"key"`. -/
def c3badToken : CookieVal := .token ⟨⟨"alice", none, 9999999999⟩, "othersecret"⟩

/-- `GET /api/colors` carrying the wrongly-signed token. -/
def c3req : ApiRequest := { method := .get, path := .colors, cookie := some c3badToken, nowMs := 0 }

theorem c3_gate_short_circuits_witness :
    dispatchJs "key" emptyJs c3req = (jwtGateResponse, emptyJs) ∧
    dispatchPart0 "key" emptyPart0 c3req = (jwtGateResponse, emptyPart0) :=
  c3_gate_short_circuits "key" emptyJs emptyPart0 c3req (by decide)
    (fun cv hcv =>
      Option.some.inj hcv ▸
        (by decide : verifyJwt "key" (c3req.nowMs / 1000) c3badToken = none))

/-! ## C4 — behaviour when the JWT_SECRET environment variable is absent -/

/-- C4: with `JWT_SECRET` unset (whose `Deno.env.get` is `undefined`) or set
to the empty string, `part_000` refuses to start — hono's `jwt()` factory
throws on the falsy secret at module evaluation, before `Deno.serve` — while
`server.js` starts on its hardcoded development default `'your-secret-key'`
(the `||` fallback); and under every configuration, a variant that does start
holds a nonempty secret, so neither ever proceeds to sign and validate tokens
with an empty/undefined secret. -/
theorem c4_no_startup_with_falsy_secret (env : Option String) :
    JWT_SECRET_part0 none = none ∧
    startPart0 none = .error () ∧
    startPart0 (some "") = .error () ∧
    startJs none = .ok "your-secret-key" ∧
    startJs (some "") = .ok "your-secret-key" ∧
    (∀ s, startPart0 env = .ok s → s ≠ "") ∧
    (∀ s, startJs env = .ok s → s ≠ "") := by
  refine ⟨rfl, rfl, rfl, rfl, rfl, ?_, ?_⟩
  · intro s hs
    rcases env with _ | v
    · exact absurd hs (by simp [startPart0, JWT_SECRET_part0, jwtMiddlewareFactory])
    · by_cases hv : v = ""
      · subst hv
        exact absurd hs (by simp [startPart0, JWT_SECRET_part0, jwtMiddlewareFactory])
      · simp [startPart0, JWT_SECRET_part0, jwtMiddlewareFactory, hv] at hs
        rw [← hs]
        exact hv
  · intro s hs
    rcases env with _ | v
    · simp [startJs, JWT_SECRET_js, jwtMiddlewareFactory] at hs
      rw [← hs]
      decide
    · by_cases hv : v = ""
      · subst hv
        simp [startJs, JWT_SECRET_js, jwtMiddlewareFactory] at hs
        rw [← hs]
        decide
      · simp [startJs, JWT_SECRET_js, jwtMiddlewareFactory, hv] at hs
        rw [← hs]
        exact hv

theorem c4_no_startup_with_falsy_secret_witness :
    startPart0 (some "prodkey") = .ok "prodkey" ∧
    "prodkey" ≠ "" ∧
    startJs (some "prodkey") = .ok "prodkey" :=
  ⟨rfl, (c4_no_startup_with_falsy_secret (some "prodkey")).2.2.2.2.2.1 "prodkey" rfl, rfl⟩

/-! ## C5 — record id uniqueness

`server.js` mints `Date.now().toString()`, so we need that the decimal
rendering of a natural number is injective; we prove it by evaluating the
digit string back to its value. -/

/-- Numeric value of a decimal digit character. -/
def decDigitVal (c : Char) : Nat := c.toNat - '0'.toNat

/-- Value of a decimal digit string (as printed by `Nat.repr`). -/
def decValue (l : List Char) : Nat := l.foldl (fun a c => a * 10 + decDigitVal c) 0

theorem decDigitVal_digitChar {d : Nat} (h : d < 10) :
    decDigitVal (Nat.digitChar d) = d := by
  interval_cases d <;> rfl

theorem toDigitsCore_eq_append (fuel : Nat) :
    ∀ (n : Nat) (ds : List Char),
      Nat.toDigitsCore 10 fuel n ds = Nat.toDigitsCore 10 fuel n [] ++ ds := by
  induction fuel with
  | zero => intro n ds; simp [Nat.toDigitsCore]
  | succ f ih =>
    intro n ds
    simp only [Nat.toDigitsCore]
    by_cases h : n / 10 = 0
    · simp [h]
    · rw [if_neg h, if_neg h, ih (n / 10) [Nat.digitChar (n % 10)],
        ih (n / 10) (Nat.digitChar (n % 10) :: ds)]
      simp

theorem decValue_append (l : List Char) (c : Char) :
    decValue (l ++ [c]) = decValue l * 10 + decDigitVal c := by
  simp [decValue, List.foldl_append]

theorem decValue_toDigitsCore (fuel : Nat) :
    ∀ n, n < fuel → decValue (Nat.toDigitsCore 10 fuel n []) = n := by
  induction fuel with
  | zero => intro n h; omega
  | succ f ih =>
    intro n h
    simp only [Nat.toDigitsCore]
    by_cases h0 : n / 10 = 0
    · rw [if_pos h0]
      have hn : n < 10 := by
        rcases (Nat.div_eq_zero_iff (by norm_num : 0 < 10)).mp h0 with h'
        exact h'
      have hmod : n % 10 = n := Nat.mod_eq_of_lt hn
      simp [decValue, hmod, decDigitVal_digitChar hn]
    · rw [if_neg h0, toDigitsCore_eq_append f (n / 10) [Nat.digitChar (n % 10)],
        decValue_append]
      have hpos : 0 < n := by
        rcases Nat.eq_zero_or_pos n with h' | h'
        · exfalso; apply h0; rw [h']
        · exact h'
      have hlt : n / 10 < f := by
        have hdiv : n / 10 < n := Nat.div_lt_self hpos (by norm_num)
        omega
      rw [ih (n / 10) hlt, decDigitVal_digitChar (Nat.mod_lt n (by norm_num))]
      have := Nat.div_add_mod n 10
      omega

theorem natRepr_injective : Function.Injective Nat.repr := by
  intro m n h
  have hd : Nat.toDigits 10 m = Nat.toDigits 10 n := by
    have h' := congrArg String.data h
    simpa [Nat.repr, List.asString] using h'
  have hm := decValue_toDigitsCore (m + 1) m (Nat.lt_succ_self m)
  have hn := decValue_toDigitsCore (n + 1) n (Nat.lt_succ_self n)
  rw [Nat.toDigits] at hd
  rw [Nat.toDigits] at hd
  rw [← hm, ← hn, hd]

/-- The decimal rendering used for `Date.now().toString()` is injective. -/
theorem natToString_injective : Function.Injective (fun t : Nat => (toString t : String)) :=
  fun _ _ h => natRepr_injective h

/-- The `id` field of a stored record, when numeric (the `part_000` shape). -/
def recIdNum (r : Obj) : Option Nat :=
  match getField r "id" with
  | some (.num n) => some n
  | _ => none

/-- C5 counterexample: two `server.js` record-creation calls within the same
clock millisecond (1000) mint the identical id `"1000"`, and after both calls
the store holds a single record — the second post overwrote the first. -/
theorem c5_same_instant_ids_collide :
    ((respRecord (colorsPostJs emptyJs "alice" [("color", Json.str "red")] 1000).1).bind recIdStr
      = some "1000") ∧
    ((respRecord (colorsPostJs (colorsPostJs emptyJs "alice" [("color", Json.str "red")] 1000).2
        "bob" [("color", Json.str "blue")] 1000).1).bind recIdStr = some "1000") ∧
    ((colorsPostJs (colorsPostJs emptyJs "alice" [("color", Json.str "red")] 1000).2
        "bob" [("color", Json.str "blue")] 1000).2.colors.length = 1) := by
  refine ⟨by decide, by decide, by decide⟩

/-- C5 (amended): record ids are distinct when the two creations cannot share
a key: in `server.js` two posts at distinct clock instants mint distinct
string ids (posts within one millisecond collide, the second overwriting the
first), and in `part_000` two sequential posts always mint the distinct
counter values `counter+1` and `counter+2`. -/
theorem c5_distinct_ids (stJs : StateJs) (stP0 : StatePart0) (u1 u2 : String)
    (r1 r2 : Obj) (t1 t2 t3 t4 : Nat) (h12 : t1 ≠ t2) :
    (respRecord (colorsPostJs stJs u1 r1 t1).1).bind recIdStr = some (toString t1) ∧
    (respRecord (colorsPostJs stJs u2 r2 t2).1).bind recIdStr = some (toString t2) ∧
    toString t1 ≠ toString t2 ∧
    (respRecord (colorsPostPart0 stP0 u1 r1 t3).1).bind recIdNum
      = some (stP0.counter + 1) ∧
    (respRecord (colorsPostPart0 (colorsPostPart0 stP0 u1 r1 t3).2 u2 r2 t4).1).bind recIdNum
      = some (stP0.counter + 2) ∧
    stP0.counter + 1 ≠ stP0.counter + 2 := by
  refine ⟨?_, ?_, fun h => h12 (natToString_injective h), ?_, ?_, by omega⟩ <;>
    simp [colorsPostJs, colorsPostPart0, getNextId, respRecord, recIdStr, recIdNum,
      getField_setField_same]

theorem c5_distinct_ids_witness :
    (respRecord (colorsPostJs emptyJs "alice" [] 1000).1).bind recIdStr
      = some (toString 1000) ∧
    (respRecord (colorsPostJs emptyJs "bob" [] 1001).1).bind recIdStr
      = some (toString 1001) ∧
    toString 1000 ≠ toString 1001 ∧
    (respRecord (colorsPostPart0 emptyPart0 "alice" [] 2).1).bind recIdNum
      = some (emptyPart0.counter + 1) ∧
    (respRecord (colorsPostPart0 (colorsPostPart0 emptyPart0 "alice" [] 2).2 "bob" [] 3).1).bind
        recIdNum
      = some (emptyPart0.counter + 2) ∧
    emptyPart0.counter + 1 ≠ emptyPart0.counter + 2 :=
  c5_distinct_ids emptyJs emptyPart0 "alice" "bob" [] [] 1000 1001 2 3 (by decide)

/-! ## C6 — server-side stamping of author, createdAt and id -/

/-- C6 counterexample: `src/server.js`'s `POST /api/colors` handler returns
`c.json({ record })` with no explicit status, so the response status is 200,
not the claimed 201. -/
theorem c6_js_created_status_is_200 :
    (colorsPostJs emptyJs "alice" [("color", Json.str "red")] 5).1.status = 200 ∧
    (200 : Nat) ≠ 201 := ⟨rfl, by decide⟩

/-- C6 (amended): for every authenticated `POST /api/colors`, in both
variants the response record equals the record stored under the minted id,
and its `author`, `createdAt` and `id` fields are the server-stamped values —
whatever the client supplied for them is overwritten; the status is 201 in
the `part_000` variant but 200 (`c.json`'s default) in `server.js`. -/
theorem c6_server_stamps_record (stJs : StateJs) (stP0 : StatePart0) (u : String)
    (client : Obj) (nowMs : Nat) :
    (∃ r, respRecord (colorsPostJs stJs u client nowMs).1 = some r ∧
       getField r "author" = some (.str u) ∧
       getField r "createdAt" = some (.str (toISOString nowMs)) ∧
       getField r "id" = some (.str (toString nowMs)) ∧
       kvGet (colorsPostJs stJs u client nowMs).2.colors (toString nowMs) = some r) ∧
    (colorsPostJs stJs u client nowMs).1.status = 200 ∧
    (∃ r, respRecord (colorsPostPart0 stP0 u client nowMs).1 = some r ∧
       getField r "author" = some (.str u) ∧
       getField r "createdAt" = some (.str (toISOString nowMs)) ∧
       getField r "id" = some (.num (stP0.counter + 1)) ∧
       kvGet (colorsPostPart0 stP0 u client nowMs).2.colors (stP0.counter + 1) = some r) ∧
    (colorsPostPart0 stP0 u client nowMs).1.status = 201 := by
  refine ⟨⟨_, rfl, ?_, ?_, ?_, kvGet_kvSet_same _ _ _⟩, rfl,
          ⟨_, rfl, ?_, ?_, ?_, kvGet_kvSet_same _ _ _⟩, rfl⟩
  · rw [getField_setField_other _ _ _ _ (by decide),
      getField_setField_other _ _ _ _ (by decide), getField_setField_same]
  · rw [getField_setField_other _ _ _ _ (by decide), getField_setField_same]
  · rw [getField_setField_same]
  · rw [getField_setField_other _ _ _ _ (by decide),
      getField_setField_other _ _ _ _ (by decide), getField_setField_same]
  · rw [getField_setField_other _ _ _ _ (by decide), getField_setField_same]
  · rw [getField_setField_same]

/-! ## C7 — listing with per-user favorite flags -/

/-- How a stored entry relates to its decorated output record in the
`server.js` listing: same record, plus an `isFavorite` flag holding exactly
the requesting user's favorite status of its id; all other fields untouched. -/
def decoratedRel (favs : List ((String × String) × Bool)) (u : String)
    (e : String × Obj) (d : Obj) : Prop :=
  ∃ id, recIdStr e.2 = some id ∧
    d = setField e.2 "isFavorite" (.jbool (isFavoriteJs favs u id)) ∧
    getField d "isFavorite" = some (.jbool (isFavoriteJs favs u id)) ∧
    ∀ k, k ≠ "isFavorite" → getField d k = getField e.2 k

theorem mapM_decorateJs (favs : List ((String × String) × Bool)) (u : String)
    (colors : List (String × Obj))
    (h : colors.all (fun e => (recIdStr e.2).isSome) = true) :
    ∃ dec, colors.mapM (fun e => decorateJs favs u e.2) = .ok dec ∧
      List.Forall₂ (decoratedRel favs u) colors dec := by
  induction colors with
  | nil => exact ⟨[], rfl, .nil⟩
  | cons e rest ih =>
    rw [List.all_cons, Bool.and_eq_true] at h
    obtain ⟨h1, h2⟩ := h
    obtain ⟨dec, hdec, hrel⟩ := ih h2
    obtain ⟨id, hid⟩ := Option.isSome_iff_exists.mp h1
    refine ⟨setField e.2 "isFavorite" (.jbool (isFavoriteJs favs u id)) :: dec, ?_, ?_⟩
    · rw [List.mapM_cons]
      have he : decorateJs favs u e.2
          = Except.ok (setField e.2 "isFavorite" (.jbool (isFavoriteJs favs u id))) := by
        simp [decorateJs, hid]
      rw [he, hdec]
      rfl
    · exact .cons
        ⟨id, hid, rfl, getField_setField_same _ _ _,
         fun k hk => getField_setField_other _ _ _ _ hk⟩ hrel

/-- C7 counterexample: in the `part_000` variant, after a record is created
through its own `POST /api/colors` handler, `GET /api/colors` returns that
record with no `isFavorite` field at all — the listing never augments records
with favorite flags (the variant has no favorites logic). -/
theorem c7_part0_listing_has_no_flag :
    ∃ r, (colorsGetPart0 (colorsPostPart0 emptyPart0 "alice"
            [("color", Json.str "red")] 7).2).body = .arr [.obj r] ∧
      getField r "author" = some (.str "alice") ∧
      getField r "isFavorite" = none :=
  ⟨_, rfl, rfl, rfl⟩

/-- C7 (amended): in the `server.js` variant the listing returns all stored
records, newest first (the stored order reversed), each augmented with an
`isFavorite` flag computed for the requesting user only, true exactly when
that user's favorites partition holds the record's id; in the `part_000`
variant the listing is the raw stored records reversed, with no `isFavorite`
field. -/
theorem c7_list_with_favorites (stJs : StateJs) (stP0 : StatePart0) (u : String)
    (hwf : stJs.colors.all (fun e => (recIdStr e.2).isSome) = true)
    (h0 : stP0.colors.all (fun e => (getField e.2 "isFavorite").isNone) = true) :
    (∃ dec : List Obj, colorsGetJs stJs u
        = .ok { status := 200, body := .arr ((dec.reverse).map .obj) } ∧
      List.Forall₂ (decoratedRel stJs.favorites u) stJs.colors dec) ∧
    (∀ id, isFavoriteJs stJs.favorites u id = true ↔
      kvGet stJs.favorites (u, id) = some true) ∧
    (∃ out : List Obj,
      colorsGetPart0 stP0 = { status := 200, body := .arr (out.map .obj) } ∧
      out.length = stP0.colors.length ∧
      ∀ r ∈ out, getField r "isFavorite" = none) := by
  refine ⟨?_, ?_, ?_⟩
  · obtain ⟨dec, hdec, hrel⟩ := mapM_decorateJs stJs.favorites u stJs.colors hwf
    refine ⟨dec, ?_, hrel⟩
    unfold colorsGetJs
    rw [hdec]
    rfl
  · intro id
    unfold isFavoriteJs
    cases hkv : kvGet stJs.favorites (u, id) with
    | none => simp
    | some b => cases b <;> simp
  · refine ⟨(stP0.colors.map (fun e => e.2)).reverse, ?_, by simp, ?_⟩
    · simp [colorsGetPart0, List.map_reverse, List.map_map, Function.comp]
    · intro r hr
      rw [List.mem_reverse, List.mem_map] at hr
      obtain ⟨e, he, rfl⟩ := hr
      have := List.all_eq_true.mp h0 e he
      simpa [Option.isNone_iff_eq_none] using this

/-- A `server.js` state with one stored record (id `"1000"`) favorited by
`alice`. -/
def c7stJs : StateJs :=
  { users := [],
    colors := [("1000", [("color", Json.str "red"), ("id", Json.str "1000")])],
    favorites := [(("alice", "1000"), true)] }

/-- A `part_000` state with one stored record. -/
def c7stP0 : StatePart0 :=
  { users := [], colors := [(1, [("color", Json.str "red")])], counter := 1 }

theorem c7_list_with_favorites_witness :
    (∃ dec : List Obj, colorsGetJs c7stJs "alice"
        = .ok { status := 200, body := .arr ((dec.reverse).map .obj) } ∧
      List.Forall₂ (decoratedRel c7stJs.favorites "alice") c7stJs.colors dec) ∧
    (∀ id, isFavoriteJs c7stJs.favorites "alice" id = true ↔
      kvGet c7stJs.favorites ("alice", id) = some true) ∧
    (∃ out : List Obj,
      colorsGetPart0 c7stP0 = { status := 200, body := .arr (out.map .obj) } ∧
      out.length = c7stP0.colors.length ∧
      ∀ r ∈ out, getField r "isFavorite" = none) :=
  c7_list_with_favorites c7stJs c7stP0 "alice" (by decide) (by decide)

/-! ## C8 — toggling a favorite twice -/

/-- C8: from a state where `(u, id)` is not favorited, the first toggle
reports `{favorite: true}`, the second `{favorite: false}`, the favorites
partition is restored exactly, and after each call `isFavorite` agrees with
the value the call returned. -/
theorem c8_toggle_twice_roundtrip (favs : List ((String × String) × Bool)) (u id : String)
    (h : kvGet favs (u, id) = none) :
    (favToggleJs favs u id).1
      = { status := 200, body := .obj [("favorite", .jbool true)] } ∧
    isFavoriteJs (favToggleJs favs u id).2 u id = true ∧
    (favToggleJs (favToggleJs favs u id).2 u id).1
      = { status := 200, body := .obj [("favorite", .jbool false)] } ∧
    isFavoriteJs (favToggleJs (favToggleJs favs u id).2 u id).2 u id = false ∧
    (favToggleJs (favToggleJs favs u id).2 u id).2 = favs := by
  have hs : favToggleJs favs u id
      = ({ status := 200, body := .obj [("favorite", .jbool true)] },
         kvSet favs (u, id) true) := by
    simp [favToggleJs, h]
  have h1 : kvGet (kvSet favs (u, id) true) (u, id) = some true := kvGet_kvSet_same _ _ _
  have hdel : kvDelete (kvSet favs (u, id) true) (u, id) = favs :=
    kvDelete_kvSet_fresh _ _ _ h
  have hs2 : favToggleJs (kvSet favs (u, id) true) u id
      = ({ status := 200, body := .obj [("favorite", .jbool false)] },
         kvDelete (kvSet favs (u, id) true) (u, id)) := by
    simp [favToggleJs, h1]
  rw [hs]
  refine ⟨rfl, by simp [isFavoriteJs, h1], ?_, ?_, ?_⟩
  · rw [hs2]
  · rw [hs2]
    simp [hdel, isFavoriteJs, h]
  · rw [hs2]
    exact hdel

theorem c8_toggle_twice_roundtrip_witness :
    (favToggleJs [] "alice" "1").1
      = { status := 200, body := .obj [("favorite", .jbool true)] } ∧
    isFavoriteJs (favToggleJs [] "alice" "1").2 "alice" "1" = true ∧
    (favToggleJs (favToggleJs [] "alice" "1").2 "alice" "1").1
      = { status := 200, body := .obj [("favorite", .jbool false)] } ∧
    isFavoriteJs (favToggleJs (favToggleJs [] "alice" "1").2 "alice" "1").2 "alice" "1"
      = false ∧
    (favToggleJs (favToggleJs [] "alice" "1").2 "alice" "1").2 = [] :=
  c8_toggle_twice_roundtrip [] "alice" "1" rfl

/-! ## C9 — signup validation of missing fields -/

/-- C9 counterexample: the `server.js` variant has no field validation; a
signup whose body lacks the password throws inside `hash(undefined)` and
surfaces as a 500, not the claimed 400 (and one lacking the username throws
inside `kv.get`). -/
theorem c9_js_signup_missing_field_is_500 :
    runHandler ([] : List (String × User)) (signupJs [] (some "alice") none)
      = ({ status := 500, body := .str "Internal Server Error" }, []) ∧
    signupJs [] none (some "pw123") = .error () ∧
    (500 : Nat) ≠ 400 := ⟨rfl, rfl, by decide⟩

/-- C9 (amended): a signup request missing the username or the password (or
carrying an empty one) gets a 400 with no user created in the `part_000`
variant; the `server.js` variant never answers 400 — its handler can only
produce 201, 409, or (when a missing field makes it throw) a 500, which also
creates no user. -/
theorem c9_signup_validation (users : List (String × User))
    (username password : Option String)
    (hbad : truthy username = false ∨ truthy password = false) :
    (signupPart0 users username password).1.status = 400 ∧
    (signupPart0 users username password).2 = users ∧
    (runHandler users (signupJs users username password)).1.status ≠ 400 ∧
    ((runHandler users (signupJs users username password)).1.status = 201 ∨
     (runHandler users (signupJs users username password)).1.status = 409 ∨
     ((runHandler users (signupJs users username password)).1.status = 500 ∧
      (runHandler users (signupJs users username password)).2 = users)) := by
  have hcond : (truthy username && truthy password) = false := by
    rcases hbad with h | h <;> simp [h]
  have hjs : (runHandler users (signupJs users username password)).1.status = 201 ∨
      (runHandler users (signupJs users username password)).1.status = 409 ∨
      ((runHandler users (signupJs users username password)).1.status = 500 ∧
       (runHandler users (signupJs users username password)).2 = users) := by
    rcases username with _ | u
    · exact .inr (.inr ⟨rfl, rfl⟩)
    · cases hget : kvGet users u with
      | some rec => simp [signupJs, runHandler, hget]
      | none =>
        rcases password with _ | p
        · simp [signupJs, runHandler, hget]
        · simp [signupJs, runHandler, hget]
  refine ⟨?_, ?_, ?_, hjs⟩
  · simp [signupPart0, hcond]
  · simp [signupPart0, hcond]
  · rcases hjs with h | h | ⟨h, _⟩ <;> rw [h] <;> decide

theorem c9_signup_validation_witness :
    (signupPart0 [] (some "alice") none).1.status = 400 ∧
    (signupPart0 [] (some "alice") none).2 = [] ∧
    (runHandler [] (signupJs [] (some "alice") none)).1.status ≠ 400 ∧
    ((runHandler [] (signupJs [] (some "alice") none)).1.status = 201 ∨
     (runHandler [] (signupJs [] (some "alice") none)).1.status = 409 ∨
     ((runHandler [] (signupJs [] (some "alice") none)).1.status = 500 ∧
      (runHandler [] (signupJs [] (some "alice") none)).2 = [])) :=
  c9_signup_validation [] (some "alice") none (Or.inr rfl)

/-! ## C10 — the signup/login page redirect -/

/-- C10 counterexample: a request carrying the cookie `auth_token=` (present,
empty value) is falsy in JavaScript, so the page gate does not redirect even
though the cookie is not absent — refuting "redirects whenever any
`auth_token` cookie is present" and "served only when that cookie is entirely
absent". -/
theorem c10_empty_cookie_serves_page :
    pagesGate (some "") = PageResult.next ∧ (some "" : Option String) ≠ none :=
  ⟨rfl, by decide⟩

/-- C10 (amended): the gate on `/signup.html` and `/login.html` redirects to
`/index.html` exactly when the `auth_token` cookie is present with a nonempty
value — the raw string is only tested for truthiness, never validated, so any
expired, malformed or wrongly-signed value redirects; an absent or
empty-valued cookie lets the page be served. -/
theorem c10_pages_gate_truthiness (s : String) (hs : s ≠ "") :
    pagesGate (some s) = .redirect "/index.html" ∧
    pagesGate (some "") = .next ∧
    pagesGate none = .next := by
  refine ⟨?_, rfl, rfl⟩
  simp [pagesGate, truthy, hs]

theorem c10_pages_gate_truthiness_witness :
    pagesGate (some "not.a.valid.jwt") = .redirect "/index.html" ∧
    pagesGate (some "") = .next ∧
    pagesGate none = .next :=
  c10_pages_gate_truthiness "not.a.valid.jwt" (by decide)

end DenoRestapi
